import Mathlib

/-!
Verification of the prompt-composition / response-extraction core of the
`tool-content-backend` repository.

The Python source is shallowly embedded: pure string-manipulating functions
become Lean functions over `String` / `List Char`, and the stateful agent
code becomes explicit state passing.  Fallible steps (the external LLM call,
`str.format`) are modelled with `Except`.

Conventions for the embedding of Python string primitives:
  * Python `str` is modelled by `List Char` (for the normalisation pass,
    where the proofs are list-structural) or `String` (elsewhere).
  * Python's regex class `\s` and `str.strip()` whitespace are modelled by
    the ASCII whitespace characters (space, tab, newline, carriage return,
    vertical tab, form feed), the alphabet actually exercised by the code.
  * Python's `str.lower()` is modelled on the ASCII letters plus the accented
    Spanish letters appearing in the repository's marker strings.
-/

namespace ToolContent

/-- Python `\s` / `str.strip` whitespace, restricted to the ASCII set. -/
def isWs (c : Char) : Bool :=
  c = ' ' || c = '\t' || c = '\n' || c = '\r' || c = '\x0b' || c = '\x0c'

/-- The regex class `[A-Z]` used in `format_content_for_readability`. -/
def isUpperAZ (c : Char) : Bool :=
  'A' ≤ c && c ≤ 'Z'

/-- Embeds `re.sub(r'\.(?=[A-Z])', '. ', content)` from
`common/utils/helpers.py`: every `'.'` immediately followed by an ASCII
uppercase letter gets a space inserted after it; scanning resumes at the
uppercase letter (the lookahead is not consumed). -/
def fixDot : List Char → List Char
  | [] => []
  | [a] => [a]
  | a :: b :: rest =>
    if a = '.' ∧ isUpperAZ b then '.' :: ' ' :: fixDot (b :: rest)
    else a :: fixDot (b :: rest)

/-- Embeds `re.sub(r'\,(?=[A-Z])', ', ', content)` from
`common/utils/helpers.py`. -/
def fixComma : List Char → List Char
  | [] => []
  | [a] => [a]
  | a :: b :: rest =>
    if a = ',' ∧ isUpperAZ b then ',' :: ' ' :: fixComma (b :: rest)
    else a :: fixComma (b :: rest)

/-- Embeds `re.sub(r'\s+', ' ', content)`: every maximal run of whitespace
collapses to a single space.  The `Bool` argument records whether the scan is
inside a whitespace run whose single replacement space was already emitted. -/
def collapseWsAux : Bool → List Char → List Char
  | _, [] => []
  | inRun, c :: cs =>
    if isWs c then
      if inRun then collapseWsAux true cs
      else ' ' :: collapseWsAux true cs
    else c :: collapseWsAux false cs

def collapseWs (l : List Char) : List Char :=
  collapseWsAux false l

/-- Replacement text for one maximal newline run under `re.sub(r'\n{3,}', '\n\n', ...)`:
runs of three or more newlines become exactly two, shorter runs are kept. -/
def nlRunOut (k : Nat) : List Char :=
  if 3 ≤ k then ['\n', '\n'] else List.replicate k '\n'

/-- Embeds `re.sub(r'\n{3,}', '\n\n', content)`.  The `Nat` argument counts
the pending newlines of the current run. -/
def collapseNlAux : Nat → List Char → List Char
  | k, [] => nlRunOut k
  | k, c :: cs =>
    if c = '\n' then collapseNlAux (k + 1) cs
    else nlRunOut k ++ c :: collapseNlAux 0 cs

def collapseNl (l : List Char) : List Char :=
  collapseNlAux 0 l

/-- Python `str.strip()` (over the modelled whitespace set). -/
def pyStrip (l : List Char) : List Char :=
  (l.dropWhile isWs).rdropWhile isWs

/-- `format_content_for_readability` from `common/utils/helpers.py`, the
normalisation pass: fix glued `.`/`,` boundaries, collapse whitespace runs,
collapse 3+ newline runs, strip. -/
def formatContentForReadability (l : List Char) : List Char :=
  pyStrip (collapseNl (collapseWs (fixComma (fixDot l))))

example : formatContentForReadability "a\n\n\nb".data = "a b".data := by decide
example : formatContentForReadability "  x.Y,Z  ".data = "x. Y, Z".data := by decide

/-! ### Invariants of the normalisation pass -/

/-- No `'.'` is immediately followed by an ASCII uppercase letter. -/
def RD (a b : Char) : Prop := ¬(a = '.' ∧ isUpperAZ b)

/-- No `','` is immediately followed by an ASCII uppercase letter. -/
def RC (a b : Char) : Prop := ¬(a = ',' ∧ isUpperAZ b)

/-- No two adjacent whitespace characters. -/
def NoWW (a b : Char) : Prop := ¬(isWs a ∧ isWs b)

theorem chainOfInfixChar {R : Char → Char → Prop} {l m : List Char}
    (h : List.Chain' R m) (hinf : l <:+: m) : List.Chain' R l :=
  List.Chain'.infix h hinf

theorem fixDot_head (l : List Char) : (fixDot l).head? = l.head? := by
  induction l using fixDot.induct with
  | case1 => rfl
  | case2 a => rfl
  | case3 a b rest h ih =>
    rw [fixDot, if_pos h]
    simp [h.1]
  | case4 a b rest h ih =>
    rw [fixDot, if_neg h]
    simp

theorem fixComma_head (l : List Char) : (fixComma l).head? = l.head? := by
  induction l using fixComma.induct with
  | case1 => rfl
  | case2 a => rfl
  | case3 a b rest h ih =>
    rw [fixComma, if_pos h]
    simp [h.1]
  | case4 a b rest h ih =>
    rw [fixComma, if_neg h]
    simp

theorem fixDot_chain (l : List Char) : List.Chain' RD (fixDot l) := by
  induction l using fixDot.induct with
  | case1 => simp [fixDot]
  | case2 a => simp [fixDot]
  | case3 a b rest h ih =>
    rw [fixDot, if_pos h]
    rw [List.chain'_cons']
    refine ⟨?_, ?_⟩
    · intro y hy
      simp only [List.head?_cons, Option.mem_def, Option.some.injEq] at hy
      subst hy
      intro hc
      simp [isUpperAZ] at hc
    · rw [List.chain'_cons']
      refine ⟨?_, ih⟩
      intro y hy
      intro hc
      obtain ⟨h1, _⟩ := hc
      exact absurd h1 (by decide)
  | case4 a b rest h ih =>
    rw [fixDot, if_neg h]
    rw [List.chain'_cons']
    refine ⟨?_, ih⟩
    intro y hy
    rw [fixDot_head] at hy
    simp only [List.head?_cons, Option.mem_def, Option.some.injEq] at hy
    subst hy
    exact h

theorem fixComma_chain (l : List Char) : List.Chain' RC (fixComma l) := by
  induction l using fixComma.induct with
  | case1 => simp [fixComma]
  | case2 a => simp [fixComma]
  | case3 a b rest h ih =>
    rw [fixComma, if_pos h]
    rw [List.chain'_cons']
    refine ⟨?_, ?_⟩
    · intro y hy
      simp only [List.head?_cons, Option.mem_def, Option.some.injEq] at hy
      subst hy
      intro hc
      simp [isUpperAZ] at hc
    · rw [List.chain'_cons']
      refine ⟨?_, ih⟩
      intro y hy
      intro hc
      obtain ⟨h1, _⟩ := hc
      exact absurd h1 (by decide)
  | case4 a b rest h ih =>
    rw [fixComma, if_neg h]
    rw [List.chain'_cons']
    refine ⟨?_, ih⟩
    intro y hy
    rw [fixComma_head] at hy
    simp only [List.head?_cons, Option.mem_def, Option.some.injEq] at hy
    subst hy
    exact h

/-- `fixComma` only inserts spaces after commas, so it preserves any adjacency
invariant that tolerates the two new pairs `(',', ' ')` and `(' ', _)`. -/
theorem fixComma_pres {R : Char → Char → Prop} (hsp : ∀ b, R ' ' b) (hcs : R ',' ' ')
    (l : List Char) (hl : List.Chain' R l) : List.Chain' R (fixComma l) := by
  induction l using fixComma.induct with
  | case1 => simp [fixComma]
  | case2 a => simp [fixComma]
  | case3 a b rest h ih =>
    rw [fixComma, if_pos h]
    rw [List.chain'_cons']
    refine ⟨?_, ?_⟩
    · intro y hy
      simp only [List.head?_cons, Option.mem_def, Option.some.injEq] at hy
      subst hy
      exact hcs
    · rw [List.chain'_cons']
      exact ⟨fun y _ => hsp y, ih (List.chain'_cons'.1 hl).2⟩
  | case4 a b rest h ih =>
    rw [fixComma, if_neg h]
    rw [List.chain'_cons']
    obtain ⟨hab, htl⟩ := List.chain'_cons'.1 hl
    refine ⟨?_, ih htl⟩
    intro y hy
    rw [fixComma_head] at hy
    simp only [List.head?_cons, Option.mem_def, Option.some.injEq] at hy
    subst hy
    exact hab _ rfl

theorem collapseWsAux_ws_true {d : Char} (ds : List Char) (hd : isWs d = true) :
    collapseWsAux true (d :: ds) = collapseWsAux true ds := by
  simp [collapseWsAux, hd]

theorem collapseWsAux_ws_false {d : Char} (ds : List Char) (hd : isWs d = true) :
    collapseWsAux false (d :: ds) = ' ' :: collapseWsAux true ds := by
  simp [collapseWsAux, hd]

theorem collapseWsAux_nws {d : Char} (r : Bool) (ds : List Char) (hd : isWs d = false) :
    collapseWsAux r (d :: ds) = d :: collapseWsAux false ds := by
  simp [collapseWsAux, hd]

theorem collapseWsAux_mem {c : Char} :
    ∀ (r : Bool) (l : List Char), c ∈ collapseWsAux r l →
      (c ∈ l ∧ isWs c = false) ∨ c = ' '
  | _, [], h => by simp [collapseWsAux] at h
  | r, d :: ds, h => by
    by_cases hd : isWs d = true
    · cases r with
      | true =>
        rw [collapseWsAux_ws_true ds hd] at h
        rcases collapseWsAux_mem true ds h with ⟨h1, h2⟩ | h3
        · exact Or.inl ⟨List.mem_cons_of_mem _ h1, h2⟩
        · exact Or.inr h3
      | false =>
        rw [collapseWsAux_ws_false ds hd] at h
        rcases List.mem_cons.1 h with h | h
        · exact Or.inr h
        · rcases collapseWsAux_mem true ds h with ⟨h1, h2⟩ | h3
          · exact Or.inl ⟨List.mem_cons_of_mem _ h1, h2⟩
          · exact Or.inr h3
    · have hd' : isWs d = false := by simpa using hd
      rw [collapseWsAux_nws r ds hd'] at h
      rcases List.mem_cons.1 h with h | h
      · subst h
        exact Or.inl ⟨List.mem_cons_self _ _, hd'⟩
      · rcases collapseWsAux_mem false ds h with ⟨h1, h2⟩ | h3
        · exact Or.inl ⟨List.mem_cons_of_mem _ h1, h2⟩
        · exact Or.inr h3

theorem collapseWsAux_true_head :
    ∀ (l : List Char), ∀ y ∈ (collapseWsAux true l).head?, isWs y = false
  | [], y, hy => by simp [collapseWsAux] at hy
  | d :: ds, y, hy => by
    by_cases hd : isWs d = true
    · rw [collapseWsAux_ws_true ds hd] at hy
      exact collapseWsAux_true_head ds y hy
    · have hd' : isWs d = false := by simpa using hd
      rw [collapseWsAux_nws true ds hd'] at hy
      simp only [List.head?_cons, Option.mem_def, Option.some.injEq] at hy
      subst hy
      exact hd'

theorem collapseWsAux_false_head (l : List Char) :
    (collapseWsAux false l).head? = l.head?.map (fun c => if isWs c then ' ' else c) := by
  cases l with
  | nil => rfl
  | cons d ds =>
    by_cases hd : isWs d = true
    · rw [collapseWsAux_ws_false ds hd]
      simp [hd]
    · have hd' : isWs d = false := by simpa using hd
      rw [collapseWsAux_nws false ds hd']
      simp [hd']

theorem collapseWs_pres {R : Char → Char → Prop}
    (h1 : ∀ a, R a ' ') (h2 : ∀ b, R ' ' b) :
    ∀ (r : Bool) (l : List Char), List.Chain' R l → List.Chain' R (collapseWsAux r l)
  | _, [], _ => by simp [collapseWsAux]
  | r, d :: ds, hl => by
    obtain ⟨hhd, htl⟩ := List.chain'_cons'.1 hl
    by_cases hd : isWs d = true
    · cases r with
      | true =>
        rw [collapseWsAux_ws_true ds hd]
        exact collapseWs_pres h1 h2 true ds htl
      | false =>
        rw [collapseWsAux_ws_false ds hd]
        rw [List.chain'_cons']
        exact ⟨fun y _ => h2 y, collapseWs_pres h1 h2 true ds htl⟩
    · have hd' : isWs d = false := by simpa using hd
      rw [collapseWsAux_nws r ds hd']
      rw [List.chain'_cons']
      refine ⟨?_, collapseWs_pres h1 h2 false ds htl⟩
      intro y hy
      rw [collapseWsAux_false_head] at hy
      cases ds with
      | nil => simp at hy
      | cons e es =>
        simp only [List.head?_cons, Option.map_some', Option.mem_def,
          Option.some.injEq] at hy
        subst hy
        by_cases he : isWs e = true
        · simpa [he] using h1 d
        · have he' : isWs e = false := by simpa using he
          simpa [he'] using hhd e (by simp)

theorem collapseWs_noWW :
    ∀ (r : Bool) (l : List Char), List.Chain' NoWW (collapseWsAux r l)
  | _, [] => by simp [collapseWsAux]
  | r, d :: ds => by
    by_cases hd : isWs d = true
    · cases r with
      | true =>
        rw [collapseWsAux_ws_true ds hd]
        exact collapseWs_noWW true ds
      | false =>
        rw [collapseWsAux_ws_false ds hd]
        rw [List.chain'_cons']
        refine ⟨?_, collapseWs_noWW true ds⟩
        intro y hy
        have hns := collapseWsAux_true_head ds y hy
        intro hc
        rw [hns] at hc
        exact absurd hc.2 (by simp)
    · have hd' : isWs d = false := by simpa using hd
      rw [collapseWsAux_nws r ds hd']
      rw [List.chain'_cons']
      refine ⟨?_, collapseWs_noWW false ds⟩
      intro y _
      intro hc
      rw [hd'] at hc
      exact absurd hc.1 (by simp)

theorem collapseNl_id : ∀ (l : List Char), '\n' ∉ l → collapseNlAux 0 l = l
  | [], _ => by simp [collapseNlAux, nlRunOut]
  | c :: cs, h => by
    have hc : ¬ c = '\n' := fun hc => h (hc ▸ List.mem_cons_self _ _)
    have hcs : '\n' ∉ cs := fun hm => h (List.mem_cons_of_mem _ hm)
    simp only [collapseNlAux, hc, if_false]
    simp [nlRunOut, collapseNl_id cs hcs]

theorem pyStrip_infixOf (l : List Char) : pyStrip l <:+: l := by
  have h1 : (l.dropWhile isWs).rdropWhile isWs <+: l.dropWhile isWs :=
    List.rdropWhile_prefix isWs (l.dropWhile isWs)
  have h2 : l.dropWhile isWs <:+ l := List.dropWhile_suffix isWs
  exact h1.isInfix.trans h2.isInfix

theorem pyStrip_head_not_ws (l : List Char) :
    ∀ y ∈ (pyStrip l).head?, isWs y = false := by
  intro y hy
  have hpre : (l.dropWhile isWs).rdropWhile isWs <+: l.dropWhile isWs :=
    List.rdropWhile_prefix isWs (l.dropWhile isWs)
  obtain ⟨t, ht⟩ := hpre
  cases hs : pyStrip l with
  | nil =>
    rw [hs] at hy
    simp at hy
  | cons a as =>
    rw [hs] at hy
    simp only [List.head?_cons, Option.mem_def, Option.some.injEq] at hy
    rw [pyStrip] at hs
    rw [hs] at ht
    have hm : l.dropWhile isWs = a :: (as ++ t) := by
      rw [← ht]
      simp
    have hne : l.dropWhile isWs ≠ [] := by
      rw [hm]
      simp
    have hh := List.head_dropWhile_not isWs l hne
    have hhead : (l.dropWhile isWs).head hne = a := by
      rw [List.head_eq_iff_head?_eq_some]
      rw [hm]
      rfl
    rw [hhead] at hh
    rw [← hy]
    simpa using hh

theorem rdropWhileWs_last_not_ws (m : List Char) :
    ∀ y ∈ (m.rdropWhile isWs).getLast?, isWs y = false := by
  intro y hy
  cases hne : m.rdropWhile isWs with
  | nil =>
    rw [hne] at hy
    simp at hy
  | cons a as =>
    have h0 : m.rdropWhile isWs ≠ [] := by
      rw [hne]
      simp
    rw [List.getLast?_eq_getLast _ h0] at hy
    simp only [Option.mem_def, Option.some.injEq] at hy
    have hlast := List.rdropWhile_last_not isWs m h0
    rw [hy] at hlast
    simpa using hlast

theorem pyStrip_last_not_ws (l : List Char) :
    ∀ y ∈ (pyStrip l).getLast?, isWs y = false :=
  fun y hy => rdropWhileWs_last_not_ws (l.dropWhile isWs) y hy

theorem pyStrip_id (l : List Char)
    (hh : ∀ y ∈ l.head?, isWs y = false)
    (hl : ∀ y ∈ l.getLast?, isWs y = false) : pyStrip l = l := by
  have h1 : l.dropWhile isWs = l := by
    cases l with
    | nil => rfl
    | cons a as =>
      have : isWs a = false := hh a rfl
      simp [List.dropWhile_cons, this]
  rw [pyStrip, h1]
  rw [List.rdropWhile_eq_self_iff]
  intro hne
  have := hl (l.getLast hne) (by rw [List.getLast?_eq_getLast _ hne]; rfl)
  simp [this]

theorem fixDot_id : ∀ (l : List Char), List.Chain' RD l → fixDot l = l := by
  intro l
  induction l using fixDot.induct with
  | case1 => intro _; rfl
  | case2 a => intro _; rfl
  | case3 a b rest h ih =>
    intro hc
    obtain ⟨hab, _⟩ := List.chain'_cons'.1 hc
    exact absurd h (hab b rfl)
  | case4 a b rest h ih =>
    intro hc
    rw [fixDot, if_neg h]
    rw [ih (List.chain'_cons'.1 hc).2]

theorem fixComma_id : ∀ (l : List Char), List.Chain' RC l → fixComma l = l := by
  intro l
  induction l using fixComma.induct with
  | case1 => intro _; rfl
  | case2 a => intro _; rfl
  | case3 a b rest h ih =>
    intro hc
    obtain ⟨hab, _⟩ := List.chain'_cons'.1 hc
    exact absurd h (hab b rfl)
  | case4 a b rest h ih =>
    intro hc
    rw [fixComma, if_neg h]
    rw [ih (List.chain'_cons'.1 hc).2]

theorem collapseWsAux_id :
    ∀ (l : List Char), (∀ c ∈ l, isWs c = true → c = ' ') → List.Chain' NoWW l →
      collapseWsAux false l = l ∧
        ((∀ y ∈ l.head?, isWs y = false) → collapseWsAux true l = l)
  | [], _, _ => ⟨rfl, fun _ => rfl⟩
  | c :: cs, hmem, hch => by
    obtain ⟨hhd, htl⟩ := List.chain'_cons'.1 hch
    have hmem' : ∀ d ∈ cs, isWs d = true → d = ' ' :=
      fun d hd => hmem d (List.mem_cons_of_mem _ hd)
    have ih := collapseWsAux_id cs hmem' htl
    by_cases hc : isWs c = true
    · have hsp : c = ' ' := hmem c (List.mem_cons_self _ _) hc
      constructor
      · rw [collapseWsAux_ws_false cs hc]
        have hcs : ∀ y ∈ cs.head?, isWs y = false := by
          intro y hy
          have := hhd y hy
          by_contra hcon
          exact this ⟨hc, by simpa using hcon⟩
        rw [ih.2 hcs, hsp]
      · intro hhead
        have := hhead c rfl
        rw [this] at hc
        exact absurd hc (by simp)
    · have hc' : isWs c = false := by simpa using hc
      constructor
      · rw [collapseWsAux_nws false cs hc', ih.1]
      · intro _
        rw [collapseWsAux_nws true cs hc', ih.1]

theorem RD_sp_left (b : Char) : RD ' ' b := fun hc => absurd hc.1 (by decide)

theorem RD_sp_right (a : Char) : RD a ' ' := fun hc => absurd hc.2 (by decide)

theorem RC_sp_left (b : Char) : RC ' ' b := fun hc => absurd hc.1 (by decide)

theorem RC_sp_right (a : Char) : RC a ' ' := fun hc => absurd hc.2 (by decide)

theorem coreA_inv (l : List Char) :
    List.Chain' RD (collapseWs (fixComma (fixDot l))) ∧
    List.Chain' RC (collapseWs (fixComma (fixDot l))) ∧
    List.Chain' NoWW (collapseWs (fixComma (fixDot l))) ∧
    (∀ c ∈ collapseWs (fixComma (fixDot l)), isWs c = true → c = ' ') := by
  refine ⟨?_, ?_, collapseWs_noWW false _, ?_⟩
  · exact collapseWs_pres RD_sp_right RD_sp_left false _
      (fixComma_pres RD_sp_left (RD_sp_right ',') _ (fixDot_chain l))
  · exact collapseWs_pres RC_sp_right RC_sp_left false _ (fixComma_chain (fixDot l))
  · intro c hc hw
    rcases collapseWsAux_mem false _ hc with ⟨_, h2⟩ | h3
    · rw [h2] at hw
      exact absurd hw (by simp)
    · exact h3

theorem coreA_no_nl (l : List Char) : '\n' ∉ collapseWs (fixComma (fixDot l)) := by
  intro hin
  have := (coreA_inv l).2.2.2 '\n' hin (by decide)
  exact absurd this (by decide)

theorem formatContent_unfold (l : List Char) :
    formatContentForReadability l = pyStrip (collapseWs (fixComma (fixDot l))) := by
  rw [formatContentForReadability, collapseNl, collapseNl_id _ (coreA_no_nl l)]

theorem formatContent_inv (l : List Char) :
    List.Chain' RD (formatContentForReadability l) ∧
    List.Chain' RC (formatContentForReadability l) ∧
    List.Chain' NoWW (formatContentForReadability l) ∧
    (∀ c ∈ formatContentForReadability l, isWs c = true → c = ' ') ∧
    (∀ y ∈ (formatContentForReadability l).head?, isWs y = false) ∧
    (∀ y ∈ (formatContentForReadability l).getLast?, isWs y = false) := by
  obtain ⟨hRD, hRC, hWW, hmem⟩ := coreA_inv l
  rw [formatContent_unfold l]
  have hinf := pyStrip_infixOf (collapseWs (fixComma (fixDot l)))
  refine ⟨chainOfInfixChar hRD hinf, chainOfInfixChar hRC hinf, chainOfInfixChar hWW hinf,
    ?_, pyStrip_head_not_ws _, pyStrip_last_not_ws _⟩
  intro c hc
  exact hmem c (hinf.sublist.subset hc)

theorem formatContent_no_nl (l : List Char) : '\n' ∉ formatContentForReadability l := by
  intro hin
  have := (formatContent_inv l).2.2.2.1 '\n' hin (by decide)
  exact absurd this (by decide)

/-- C8: the normalisation pass `format_content_for_readability` is idempotent:
normalising an already-normalised text changes nothing. -/
theorem format_content_idempotent (l : List Char) :
    formatContentForReadability (formatContentForReadability l) =
      formatContentForReadability l := by
  obtain ⟨hRD, hRC, hWW, hmem, hhead, hlast⟩ := formatContent_inv l
  have h1 : fixDot (formatContentForReadability l) = formatContentForReadability l :=
    fixDot_id _ hRD
  have h2 : fixComma (formatContentForReadability l) = formatContentForReadability l :=
    fixComma_id _ hRC
  have h3 : collapseWs (formatContentForReadability l) = formatContentForReadability l :=
    (collapseWsAux_id _ hmem hWW).1
  have h4 : collapseNl (formatContentForReadability l) = formatContentForReadability l :=
    collapseNl_id _ (formatContent_no_nl l)
  have h5 : pyStrip (formatContentForReadability l) = formatContentForReadability l :=
    pyStrip_id _ hhead hlast
  rw [formatContentForReadability, h1, h2]
  rw [show collapseWs (formatContentForReadability l) = formatContentForReadability l from h3]
  rw [show collapseNl (formatContentForReadability l) = formatContentForReadability l from h4]
  exact h5

/-- C7 counterexample: the input `"a\n\n\nb"` contains a run of three newlines,
yet the normalised output is `"a b"`, which contains zero newlines rather than
the two the claim requires — the whitespace-collapsing substitution runs first
and removes every newline. -/
theorem format_content_newline_counterexample :
    formatContentForReadability "a\n\n\nb".data = "a b".data ∧
      ¬ (("a\n\n\nb".data.count '\n' ≥ 3) →
          (formatContentForReadability "a\n\n\nb".data).count '\n' = 2) := by
  decide

/-- C7 (amended): `format_content_for_readability` inserts a space after `'.'`
or `','` glued to an uppercase letter, collapses every whitespace run —
newline runs of any length included — to a single space, and trims; the
3-plus-newline collapsing step runs only after all newlines are gone, so it
has no effect and the output never contains a newline. -/
theorem format_content_amended (l : List Char) :
    formatContentForReadability l = pyStrip (collapseWs (fixComma (fixDot l))) ∧
      '\n' ∉ formatContentForReadability l :=
  ⟨formatContent_unfold l, formatContent_no_nl l⟩

/-! ### String primitives for the response extractor

The extractor in `blog/agents/blog_agent.py` uses `str.lower`, `str.find`
(with and without a start offset), slicing, `str.split` (with separator and
maxsplit), `str.replace`, `str.strip` and the `in` containment test.  These
are embedded below over `List Char`. -/

/-- Python `str.lower`, on the ASCII letters plus the accented Spanish
uppercase letters (the alphabet appearing in the repository's markers). -/
def pyLower (c : Char) : Char :=
  if 'A' ≤ c ∧ c ≤ 'Z' then Char.ofNat (c.toNat + 32)
  else if c = 'Á' then 'á'
  else if c = 'É' then 'é'
  else if c = 'Í' then 'í'
  else if c = 'Ó' then 'ó'
  else if c = 'Ú' then 'ú'
  else if c = 'Ñ' then 'ñ'
  else if c = 'Ü' then 'ü'
  else c

def lowerList (l : List Char) : List Char :=
  l.map pyLower

/-- Python `haystack.find(needle)`: index of the first occurrence, `none` for
Python's `-1`. -/
def findSub : List Char → List Char → Option Nat
  | [], pat => if pat.isEmpty then some 0 else none
  | c :: t, pat =>
    if pat.isPrefixOf (c :: t) then some 0
    else (findSub t pat).map (· + 1)

/-- Python `haystack.find(needle, start)`. -/
def findFrom (l : List Char) (c : Char) (i : Nat) : Option Nat :=
  (findSub (l.drop i) [c]).map (· + i)

/-- Python `needle in haystack`. -/
def containsSub (l pat : List Char) : Bool :=
  (findSub l pat).isSome

/-- Python `s.split(sep, 1)` restricted to a one-character separator,
returning the two parts when the separator occurs (`len(parts) > 1`). -/
def splitOnce (sep : Char) (l : List Char) : Option (List Char × List Char) :=
  match findSub l [sep] with
  | none => none
  | some i => some (l.take i, l.drop (i + 1))

/-- Python `s.split(sep)` for a one-character separator. -/
def splitChar (sep : Char) : List Char → List (List Char)
  | [] => [[]]
  | c :: cs =>
    if c = sep then [] :: splitChar sep cs
    else
      match splitChar sep cs with
      | [] => [[c]]
      | h :: t => (c :: h) :: t

/-- Fuel-based scan for `replaceList`; one unit of fuel is spent per match or
per copied character, so `l.length` fuel always suffices for a non-empty
pattern. -/
def replaceListAux (pat repl : List Char) : Nat → List Char → List Char
  | 0, l => l
  | _ + 1, [] => []
  | fuel + 1, c :: cs =>
    if pat.isPrefixOf (c :: cs) then
      repl ++ replaceListAux pat repl fuel ((c :: cs).drop pat.length)
    else c :: replaceListAux pat repl fuel cs

/-- Python `s.replace(pat, repl)`: replace every occurrence, scanning left to
right.  (The repository never calls `replace` with an empty pattern; that
case is defined as the identity here.) -/
def replaceList (pat repl l : List Char) : List Char :=
  if pat.isEmpty then l else replaceListAux pat repl l.length l

/-- Python `s.split()` (no separator): whitespace-separated words, empties
discarded.  The accumulator holds the current word reversed. -/
def wordsAux : List Char → List Char → List (List Char)
  | acc, [] => if acc.isEmpty then [] else [acc.reverse]
  | acc, c :: cs =>
    if isWs c then
      if acc.isEmpty then wordsAux [] cs
      else acc.reverse :: wordsAux [] cs
    else wordsAux (c :: acc) cs

def pyWords (l : List Char) : List (List Char) :=
  wordsAux [] l

example : (pyWords "  a bc\n d ".data).map String.mk = ["a", "bc", "d"] := by decide
example : findSub "abcbc".data "bc".data = some 1 := by decide
example : (splitChar ',' "a,,b".data).map String.mk = ["a", "", "b"] := by decide
example : replaceList "# ".data [] "# T # U".data = "T U".data := by decide

/-! ### The single-section extractor `_parse_blog_response` -/

/-- Result shape of `_parse_blog_response` (`titulo`, `meta_descripcion`,
`palabras_clave`, `content`). -/
structure BlogParsed where
  titulo : String
  metaDescripcion : Option String
  palabrasClave : List String
  content : String
deriving DecidableEq

/-- Lines 94-99 of `blog/agents/blog_agent.py`: first line of the text, with
every occurrence of `"# "` removed when the line contains one. -/
def tituloOf (text : String) : String :=
  let titleMatch := (splitChar '\n' text.data).headD []
  if containsSub titleMatch "# ".data then String.mk (replaceList "# ".data [] titleMatch)
  else String.mk titleMatch

/-- Lines 101-110: case-insensitive scan for "meta descripción"; the
containing line (up to the next `'\n'` after the label) is split once on
`':'` and the trimmed remainder returned.  A label on the final line (no
following newline) yields `none`. -/
def metaDescripcionOf (text : String) : Option String :=
  match findSub (lowerList text.data) "meta descripción".data with
  | none => none
  | some i =>
    match findFrom text.data '\n' i with
    | none => none
    | some e =>
      match splitOnce ':' ((text.data.take e).drop i) with
      | none => none
      | some (_, rest) => some (String.mk (pyStrip rest))

/-- Lines 112-122: same scan pattern for "palabras clave"; the remainder is
split on `','` and each token trimmed. -/
def palabrasClaveOf (text : String) : List String :=
  match findSub (lowerList text.data) "palabras clave".data with
  | none => []
  | some i =>
    match findFrom text.data '\n' i with
    | none => []
    | some e =>
      match splitOnce ':' ((text.data.take e).drop i) with
      | none => []
      | some (_, rest) =>
        (splitChar ',' (pyStrip rest)).map (fun k => String.mk (pyStrip k))

/-- The generic fallback title of the `except` branch (line 137). -/
def blogFallbackTitle : String := "Artículo de blog"

/-- `_parse_blog_response`: every step of the `try` block is total for string
inputs, so the `except` fallback branch (lines 133-139) is unreachable; the
embedding is the `try` block itself. -/
def parseBlogResponse (text : String) : BlogParsed :=
  { titulo := tituloOf text
    metaDescripcion := metaDescripcionOf text
    palabrasClave := palabrasClaveOf text
    content := text }

example :
    parseBlogResponse "# Hello\nmeta descripción: Short desc\npalabras clave: a, b, c\nBody" =
      { titulo := "Hello", metaDescripcion := some "Short desc",
        palabrasClave := ["a", "b", "c"],
        content := "# Hello\nmeta descripción: Short desc\npalabras clave: a, b, c\nBody" } := by
  decide

/-! ### The dual-section extractor `_parse_success_case_response` -/

/-- Result shape of `_parse_success_case_response`. -/
structure SuccessParsed where
  titulo : String
  resumenCorto : String
  contenidoCompleto : String
  metaDescripcion : Option String
  palabrasClave : List String
deriving DecidableEq

/-- Lines 154-156: index of the summary-role marker (first "versión corta",
falling back to "resumen ejecutivo"), searched on the lowercased text. -/
def resumenIdxOf (text : String) : Option Nat :=
  match findSub (lowerList text.data) "versión corta".data with
  | some i => some i
  | none => findSub (lowerList text.data) "resumen ejecutivo".data

/-- Lines 158-160: index of the full-role marker (first "versión completa",
falling back to "versión detallada"). -/
def completoIdxOf (text : String) : Option Nat :=
  match findSub (lowerList text.data) "versión completa".data with
  | some i => some i
  | none => findSub (lowerList text.data) "versión detallada".data

/-- Lines 196-199, the label-cleanup loop: for each of the four labels in
order, the span is LOWERCASED, every occurrence of the label removed, and the
result stripped. -/
def cleanMarkers (l : List Char) : List Char :=
  ["versión corta:".data, "resumen ejecutivo:".data,
   "versión completa:".data, "versión detallada:".data].foldl
    (fun r m => pyStrip (replaceList m [] (lowerList r))) l

/-- `_parse_success_case_response` (lines 152-230).  As with the blog parser,
every step of the `try` block is total for string inputs, so the `except`
branch (lines 231-239) is unreachable and the embedding is the `try` block. -/
def parseSuccessCaseResponse (text : String) : SuccessParsed :=
  match resumenIdxOf text, completoIdxOf text with
  | some ri, some ci =>
    let firstPart := text.data.take (min ri ci)
    let titleLines := (splitChar '\n' firstPart).filter (fun line => !(pyStrip line).isEmpty)
    let title :=
      match titleLines with
      | [] => "Caso de Éxito"
      | tl :: _ => String.mk (replaceList "# ".data [] tl)
    let spans :=
      if ri < ci then
        (pyStrip ((text.data.take ci).drop ri), pyStrip (text.data.drop ci))
      else
        (pyStrip (text.data.drop ri), pyStrip ((text.data.take ri).drop ci))
    { titulo := title
      resumenCorto := String.mk (cleanMarkers spans.1)
      contenidoCompleto := String.mk (cleanMarkers spans.2)
      metaDescripcion := metaDescripcionOf text
      palabrasClave := palabrasClaveOf text }
  | _, _ =>
    let titleMatch := (splitChar '\n' text.data).headD []
    let title :=
      if containsSub titleMatch "# ".data then String.mk (replaceList "# ".data [] titleMatch)
      else String.mk titleMatch
    { titulo := title
      resumenCorto := String.mk (List.intercalate [' '] ((pyWords text.data).take 200))
      contenidoCompleto := text
      metaDescripcion := none
      palabrasClave := [] }

example :
    (parseSuccessCaseResponse "# T\nversión completa: FULL TEXT\nversión corta: SHORT TEXT").titulo
      = "T" := by decide

/-- C1: evaluation of the dual-section extractor at the claim's own example
input.  The spans ARE assigned by marker role (the summary comes from the
"versión corta" span although that span is textually second), but the
label-cleanup loop (lines 197-199, `resumen.lower().replace(marker, "")`)
lowercases each whole span, so the extractor returns "short text" and
"full text": neither section contains the original-casing strings
"SHORT TEXT" / "FULL TEXT" required by the claim. -/
theorem success_case_example_lowercased :
    (parseSuccessCaseResponse
        "# T\nversión completa: FULL TEXT\nversión corta: SHORT TEXT").resumenCorto
        = "short text" ∧
      (parseSuccessCaseResponse
        "# T\nversión completa: FULL TEXT\nversión corta: SHORT TEXT").contenidoCompleto
        = "full text" ∧
      containsSub (parseSuccessCaseResponse
        "# T\nversión completa: FULL TEXT\nversión corta: SHORT TEXT").resumenCorto.data
        "SHORT TEXT".data = false ∧
      containsSub (parseSuccessCaseResponse
        "# T\nversión completa: FULL TEXT\nversión corta: SHORT TEXT").contenidoCompleto.data
        "FULL TEXT".data = false := by
  decide

/-- C3 counterexample: on the empty string no internal failure occurs in
`_parse_blog_response` — `"".split("\n")[0]` is `""` — so the extractor
returns an empty title, not the generic fallback "Artículo de blog" the
claim requires for empty text. -/
theorem parse_blog_empty_not_fallback :
    parseBlogResponse "" =
        { titulo := "", metaDescripcion := none, palabrasClave := [], content := "" } ∧
      (parseBlogResponse "").titulo ≠ blogFallbackTitle := by
  decide

/-- C3 (amended): the single-section extractor is total (a Lean function; in
particular the body field always equals the original input text), and on the
empty string the ordinary path succeeds with title `""` (the first line),
body `""` (the original text), no meta description and no keywords; the
generic-fallback branch is unreachable for string inputs. -/
theorem parse_blog_total_amended :
    (∀ text : String, (parseBlogResponse text).content = text) ∧
      parseBlogResponse "" =
        { titulo := "", metaDescripcion := none, palabrasClave := [], content := "" } :=
  ⟨fun _ => rfl, by decide⟩

/-- C10: `_parse_blog_response` produces a meta description only when a
newline follows the position of the (case-insensitively matched)
"meta descripción" label; when the label sits on the final line — no `'\n'`
at or after its index — the result is `none` even if the line contains a
`':'` and a description. -/
theorem meta_description_requires_newline (text : String) :
    (∀ i, findSub (lowerList text.data) "meta descripción".data = some i →
        findFrom text.data '\n' i = none →
        (parseBlogResponse text).metaDescripcion = none) ∧
      ((parseBlogResponse text).metaDescripcion.isSome →
        ∃ i, findSub (lowerList text.data) "meta descripción".data = some i ∧
          (findFrom text.data '\n' i).isSome) := by
  constructor
  · intro i hi hn
    show metaDescripcionOf text = none
    simp only [metaDescripcionOf, hi, hn]
  · intro hs
    have hs' : (metaDescripcionOf text).isSome := hs
    cases h1 : findSub (lowerList text.data) "meta descripción".data with
    | none =>
      rw [show metaDescripcionOf text = none by simp only [metaDescripcionOf, h1]] at hs'
      simp at hs'
    | some i =>
      cases h2 : findFrom text.data '\n' i with
      | none =>
        rw [show metaDescripcionOf text = none by simp only [metaDescripcionOf, h1, h2]] at hs'
        simp at hs'
      | some e =>
        refine ⟨i, ?_, by rw [h2]; rfl⟩
        first
          | exact h1
          | rfl

/-- C10 witness: with the label on the final line (`"x\nmeta descripción: d"`)
the meta description is `none`; with a newline after the label
(`"meta descripción: d\n"`) the label and a following newline indeed exist. -/
theorem meta_description_requires_newline_witness :
    (parseBlogResponse "x\nmeta descripción: d").metaDescripcion = none ∧
      (∃ i, findSub (lowerList "meta descripción: d\n".data) "meta descripción".data = some i ∧
        (findFrom "meta descripción: d\n".data '\n' i).isSome) :=
  ⟨(meta_description_requires_newline "x\nmeta descripción: d").1 2 (by decide) (by decide),
   (meta_description_requires_newline "meta descripción: d\n").2 (by decide)⟩

/-! ### Prompt templates (`common/prompt_templates/base_templates.py`,
`linkedin/prompts/linkedin_prompts.py`)

`ContentPromptTemplate` holds nine string fields; Python's `None` for
`additional_instructions` is modelled as `""` (both are falsy in the guards
the code uses). -/

structure ContentTemplate where
  roleDescription : String
  contentObjective : String
  styleGuidance : String
  structureDescription : String
  tone : String
  formatGuide : String
  seoGuidelines : String
  limitations : String
  additionalInstructions : String
deriving DecidableEq

/-- The opening block `f"Eres un {role}.\nTu objetivo es {objective}.\n\n"`. -/
def headerSection (t : ContentTemplate) : String :=
  "Eres un " ++ t.roleDescription ++ ".\nTu objetivo es " ++ t.contentObjective ++ ".\n\n"

def toneSection (t : ContentTemplate) : String :=
  "TONO:\n" ++ t.tone ++ "\n\n"

def structureSection (t : ContentTemplate) : String :=
  "ESTRUCTURA:\n" ++ t.structureDescription ++ "\n\n"

def formatSection (t : ContentTemplate) : String :=
  "FORMATO:\n" ++ t.formatGuide ++ "\n\n"

def limitationsSection (t : ContentTemplate) : String :=
  "LIMITACIONES:\n" ++ t.limitations ++ "\n\n"

def seoSection (t : ContentTemplate) : String :=
  "OPTIMIZACIÓN SEO:\n" ++ t.seoGuidelines ++ "\n\n"

def styleSection (t : ContentTemplate) : String :=
  "ESTILO:\n" ++ t.styleGuidance ++ "\n"

def additionalSection (t : ContentTemplate) : String :=
  "\n\n" ++ t.additionalInstructions

/-- `ContentPromptTemplate.get_system_message` (base_templates.py lines
65-109): sequential `+=` of section blocks, optional sections guarded by
truthiness. -/
def ContentTemplate.getSystemMessage (t : ContentTemplate) : String :=
  let m := headerSection t
  let m := if t.tone ≠ "" then m ++ toneSection t else m
  let m := m ++ structureSection t
  let m := if t.formatGuide ≠ "" then m ++ formatSection t else m
  let m := if t.limitations ≠ "" then m ++ limitationsSection t else m
  let m := if t.seoGuidelines ≠ "" then m ++ seoSection t else m
  let m := if t.styleGuidance ≠ "" then m ++ styleSection t else m
  if t.additionalInstructions ≠ "" then m ++ additionalSection t else m

/-- A LinkedIn template is a content template plus `engagement_tips`
(linkedin_prompts.py lines 10-36). -/
structure LinkedInTemplate where
  toContent : ContentTemplate
  engagementTips : String
deriving DecidableEq

/-- `LinkedInPromptTemplate.get_system_message` (linkedin_prompts.py lines
38-50): the base rendering, then the engagement-tips block appended at the
very end when non-empty. -/
def linkedInSystemMessage (t : LinkedInTemplate) : String :=
  t.toContent.getSystemMessage ++
    (if t.engagementTips ≠ "" then "\n\nCONSEJOS DE ENGAGEMENT:\n" ++ t.engagementTips ++ "\n"
     else "")

def concatAll (l : List String) : String :=
  l.foldr (· ++ ·) ""

/-- The section blocks of the base rendering, in the fixed order of the
source: header, tone, structure, format, limitations, SEO, style, additional
instructions last. -/
def orderedSections (t : ContentTemplate) : List String :=
  [headerSection t]
    ++ (if t.tone ≠ "" then [toneSection t] else [])
    ++ [structureSection t]
    ++ (if t.formatGuide ≠ "" then [formatSection t] else [])
    ++ (if t.limitations ≠ "" then [limitationsSection t] else [])
    ++ (if t.seoGuidelines ≠ "" then [seoSection t] else [])
    ++ (if t.styleGuidance ≠ "" then [styleSection t] else [])
    ++ (if t.additionalInstructions ≠ "" then [additionalSection t] else [])

theorem concatAll_append (a b : List String) :
    concatAll (a ++ b) = concatAll a ++ concatAll b := by
  induction a with
  | nil => simp [concatAll]
  | cons x xs ih =>
    show x ++ concatAll (xs ++ b) = (x ++ concatAll xs) ++ concatAll b
    rw [ih, String.append_assoc]

theorem getSystemMessage_eq_sections (t : ContentTemplate) :
    t.getSystemMessage = concatAll (orderedSections t) := by
  unfold ContentTemplate.getSystemMessage orderedSections
  split_ifs <;> simp [concatAll, String.append_assoc]

/-- C6 counterexample: for a LinkedIn-family template with non-empty
`additional_instructions` (`"A"`) and non-empty `engagement_tips` (`"E"`),
the rendered system prompt does not end with the additional instructions —
the engagement block is appended after them — refuting the claim that
`additional_instructions` is appended last in every variant family. -/
theorem additional_not_last_counterexample :
    ("A".data).isSuffixOf (linkedInSystemMessage
        { toContent :=
            { roleDescription := "r", contentObjective := "o", styleGuidance := "g",
              structureDescription := "s", tone := "", formatGuide := "",
              seoGuidelines := "", limitations := "", additionalInstructions := "A" },
          engagementTips := "E" }).data = false := by
  decide

/-- C6 (amended): the base content rendering concatenates the non-empty
section blocks in the fixed order role+objective header, tone, structure,
format, limitations, SEO guidance, style guidance, additional instructions
last, an empty optional field emitting nothing; in the LinkedIn variant
family, however, the engagement-tips block is appended AFTER the additional
instructions, so there additional instructions are not last. -/
theorem system_message_order_amended :
    (∀ t : ContentTemplate, t.getSystemMessage = concatAll (orderedSections t)) ∧
      (∀ t : LinkedInTemplate, linkedInSystemMessage t =
        concatAll (orderedSections t.toContent ++
          (if t.engagementTips ≠ "" then
            ["\n\nCONSEJOS DE ENGAGEMENT:\n" ++ t.engagementTips ++ "\n"]
           else []))) := by
  refine ⟨getSystemMessage_eq_sections, ?_⟩
  intro t
  rw [concatAll_append, ← getSystemMessage_eq_sections]
  unfold linkedInSystemMessage
  by_cases h : t.engagementTips ≠ "" <;> simp [h, concatAll]

/-! ### Message rendering and the LLM call (`common/base_agent.py`)

`_get_messages` renders the user template with Python's `str.format(**kwargs)`
— a missing keyword raises `KeyError` — and `_call_llm` builds the messages
BEFORE awaiting the model, so a render failure happens with no network call.
The external model call is abstracted as a function producing `Except`. -/

/-- The two prompt strings of a template (`get_prompt_data`). -/
structure PromptData where
  systemMessage : String
  humanTemplate : String

inductive Message
  | system (content : String)
  | human (content : String)
deriving DecidableEq

/-- Keyword-argument lookup (`kwargs[name]`). -/
def lookupVar (vars : List (String × String)) (name : String) : Option String :=
  match vars.find? (fun kv => kv.1 = name) with
  | some kv => some kv.2
  | none => none

/-- Python `template.format(**kwargs)` for templates whose replacement fields
are simple names (the only form the repository uses): `{{`/`}}` are escapes, a
`{name}` field is substituted or raises `KeyError`, an unmatched brace raises
`ValueError`.  The `Option` state holds the (reversed) name being read inside
a replacement field. -/
def formatAux (vars : List (String × String)) : Option (List Char) → List Char → Except String (List Char)
  | none, [] => .ok []
  | none, c :: rest =>
    if c = '{' then
      match rest with
      | d :: rest2 =>
        if d = '{' then
          match formatAux vars none rest2 with
          | .ok l => .ok ('{' :: l)
          | .error e => .error e
        else formatAux vars (some []) (d :: rest2)
      | [] => .error "ValueError: unmatched brace in format string"
    else if c = '}' then
      match rest with
      | d :: rest2 =>
        if d = '}' then
          match formatAux vars none rest2 with
          | .ok l => .ok ('}' :: l)
          | .error e => .error e
        else .error "ValueError: unmatched brace in format string"
      | [] => .error "ValueError: unmatched brace in format string"
    else
      match formatAux vars none rest with
      | .ok l => .ok (c :: l)
      | .error e => .error e
  | some _, [] => .error "ValueError: unmatched brace in format string"
  | some acc, c :: rest =>
    if c = '}' then
      match lookupVar vars (String.mk acc.reverse) with
      | some v =>
        match formatAux vars none rest with
        | .ok l => .ok (v.data ++ l)
        | .error e => .error e
      | none => .error ("KeyError: " ++ String.mk acc.reverse)
    else formatAux vars (some (c :: acc)) rest

/-- The placeholder names of a template, collected by the same scan as
`formatAux`. -/
def placeholdersAux : Option (List Char) → List Char → List String
  | none, [] => []
  | none, c :: rest =>
    if c = '{' then
      match rest with
      | d :: rest2 =>
        if d = '{' then placeholdersAux none rest2
        else placeholdersAux (some []) (d :: rest2)
      | [] => []
    else if c = '}' then
      match rest with
      | d :: rest2 => if d = '}' then placeholdersAux none rest2 else []
      | [] => []
    else placeholdersAux none rest
  | some _, [] => []
  | some acc, c :: rest =>
    if c = '}' then String.mk acc.reverse :: placeholdersAux none rest
    else placeholdersAux (some (c :: acc)) rest

example : placeholdersAux none "Tema: {tema}\n\nInfo: {informacion_adicional}\n".data
    = ["tema", "informacion_adicional"] := by decide

/-- `_get_messages` (base_agent.py lines 91-112): system message verbatim,
user template rendered against the supplied variables. -/
def getMessages (tmpl : PromptData) (vars : List (String × String)) :
    Except String (List Message) :=
  match formatAux vars none tmpl.humanTemplate.data with
  | .error e => .error e
  | .ok human => .ok [Message.system tmpl.systemMessage, Message.human (String.mk human)]

/-- `_call_llm` (lines 127-161): build the messages, then invoke the model.
The `Bool` of the result records whether the model service was invoked. -/
def callLLM (tmpl : PromptData) (vars : List (String × String))
    (llm : List Message → Except String String) : Except String String × Bool :=
  match getMessages tmpl vars with
  | .error e => (.error e, false)
  | .ok msgs =>
    match llm msgs with
    | .ok r => (.ok r, true)
    | .error e => (.error e, true)

theorem formatAux_error_of_missing (vars : List (String × String)) (name : String)
    (hmiss : lookupVar vars name = none) :
    ∀ (m : Option (List Char)) (l : List Char), name ∈ placeholdersAux m l →
      ∃ e, formatAux vars m l = .error e := by
  intro m l
  induction m, l using placeholdersAux.induct with
  | case1 =>
    intro h
    simp [placeholdersAux] at h
  | case2 rest2 ih =>
    intro h
    rw [placeholdersAux] at h
    simp at h
    obtain ⟨e, he⟩ := ih h
    refine ⟨e, ?_⟩
    rw [formatAux]
    simp [he]
  | case3 d rest2 hd ih =>
    intro h
    rw [placeholdersAux] at h
    simp [hd] at h
    obtain ⟨e, he⟩ := ih h
    refine ⟨e, ?_⟩
    rw [formatAux]
    simp [hd, he]
  | case4 =>
    intro h
    rw [placeholdersAux] at h
    simp at h
  | case5 rest2 hne ih =>
    intro h
    rw [placeholdersAux] at h
    simp at h
    obtain ⟨e, he⟩ := ih h
    refine ⟨e, ?_⟩
    rw [formatAux]
    simp [he]
  | case6 d rest2 hd hne =>
    intro h
    rw [placeholdersAux] at h
    simp [hd] at h
  | case7 hne =>
    intro h
    rw [placeholdersAux] at h
    simp at h
  | case8 c rest hc1 hc2 ih =>
    intro h
    rw [placeholdersAux.eq_def] at h
    simp [hc1, hc2] at h
    obtain ⟨e, he⟩ := ih h
    refine ⟨e, ?_⟩
    rw [formatAux.eq_def]
    simp [hc1, hc2, he]
  | case9 val =>
    intro h
    simp [placeholdersAux] at h
  | case10 acc rest ih =>
    intro h
    rw [placeholdersAux] at h
    simp at h
    rcases h with h | h
    · refine ⟨"KeyError: " ++ String.mk acc.reverse, ?_⟩
      have hl : lookupVar vars (String.mk acc.reverse) = none := by
        rw [← h]
        exact hmiss
      rw [formatAux]
      simp [hl]
    · obtain ⟨e, he⟩ := ih h
      cases hl : lookupVar vars (String.mk acc.reverse) with
      | none =>
        refine ⟨"KeyError: " ++ String.mk acc.reverse, ?_⟩
        rw [formatAux]
        simp [hl]
      | some v =>
        refine ⟨e, ?_⟩
        rw [formatAux]
        simp [hl, he]
  | case11 acc c rest hc ih =>
    intro h
    rw [placeholdersAux] at h
    simp [hc] at h
    obtain ⟨e, he⟩ := ih h
    refine ⟨e, ?_⟩
    rw [formatAux]
    simp [hc, he]

/-- C4: when the user-prompt template contains a placeholder with no supplied
variable, rendering fails, the error propagates out of `_call_llm`, and the
generation-model service is never invoked. -/
theorem missing_variable_fails_before_llm (tmpl : PromptData)
    (vars : List (String × String)) (llm : List Message → Except String String)
    (name : String)
    (hmem : name ∈ placeholdersAux none tmpl.humanTemplate.data)
    (hmiss : lookupVar vars name = none) :
    (∃ e, (callLLM tmpl vars llm).1 = .error e) ∧ (callLLM tmpl vars llm).2 = false := by
  obtain ⟨e, he⟩ := formatAux_error_of_missing vars name hmiss none tmpl.humanTemplate.data hmem
  have hmsg : getMessages tmpl vars = .error e := by
    rw [getMessages, he]
  constructor
  · exact ⟨e, by rw [callLLM, hmsg]⟩
  · rw [callLLM, hmsg]

/-- C4 witness: the template `"Tema: {tema}"` with no variables fails with a
render error and performs no model call, whatever the model stub would do. -/
theorem missing_variable_fails_before_llm_witness :
    (∃ e, (callLLM ⟨"sys", "Tema: {tema}"⟩ [] (fun _ => .ok "out")).1 = .error e) ∧
      (callLLM ⟨"sys", "Tema: {tema}"⟩ [] (fun _ => .ok "out")).2 = false :=
  missing_variable_fails_before_llm ⟨"sys", "Tema: {tema}"⟩ [] (fun _ => .ok "out")
    "tema" (by decide) (by decide)

/-! ### The `system_components` merge
(`blog/agents/blog_agent.py`, `GeneralInterestBlogAgent.generate_content` /
`SuccessCaseBlogAgent.generate_content`, lines 338-376 resp. 483-521)

A `system_components` mapping is filtered against the `valid_fields` set with
`None` values dropped; if anything remains, a fresh template is built from
the original template's nine fields updated with the filtered entries. -/

inductive FieldName
  | roleDescription
  | contentObjective
  | styleGuidance
  | structureDescription
  | tone
  | formatGuide
  | seoGuidelines
  | limitations
  | additionalInstructions
deriving DecidableEq

/-- The `valid_fields` set (lines 343-347), resolving a string key to the
template field it names; an unsupported key resolves to `none`. -/
def fieldOfString (s : String) : Option FieldName :=
  if s = "role_description" then some .roleDescription
  else if s = "content_objective" then some .contentObjective
  else if s = "style_guidance" then some .styleGuidance
  else if s = "structure_description" then some .structureDescription
  else if s = "tone" then some .tone
  else if s = "format_guide" then some .formatGuide
  else if s = "seo_guidelines" then some .seoGuidelines
  else if s = "limitations" then some .limitations
  else if s = "additional_instructions" then some .additionalInstructions
  else none

def setField (t : ContentTemplate) : FieldName → String → ContentTemplate
  | .roleDescription, v => { t with roleDescription := v }
  | .contentObjective, v => { t with contentObjective := v }
  | .styleGuidance, v => { t with styleGuidance := v }
  | .structureDescription, v => { t with structureDescription := v }
  | .tone, v => { t with tone := v }
  | .formatGuide, v => { t with formatGuide := v }
  | .seoGuidelines, v => { t with seoGuidelines := v }
  | .limitations, v => { t with limitations := v }
  | .additionalInstructions, v => { t with additionalInstructions := v }

def getField (t : ContentTemplate) : FieldName → String
  | .roleDescription => t.roleDescription
  | .contentObjective => t.contentObjective
  | .styleGuidance => t.styleGuidance
  | .structureDescription => t.structureDescription
  | .tone => t.tone
  | .formatGuide => t.formatGuide
  | .seoGuidelines => t.seoGuidelines
  | .limitations => t.limitations
  | .additionalInstructions => t.additionalInstructions

/-- Lines 350-353: `{k: v for k, v in components.items() if k in valid_fields
and v is not None}`, with the surviving keys resolved to fields. -/
def filterComponents (comps : List (String × Option String)) : List (FieldName × String) :=
  comps.filterMap (fun kv =>
    match fieldOfString kv.1, kv.2 with
    | some f, some v => some (f, v)
    | _, _ => none)

/-- Lines 355-375: if any valid component remains, the original template's
field values are copied into `template_args`, updated with the filtered
components (`template_args.update(filtered_components)`, later entries
winning), and a fresh template is constructed; otherwise the original
template is used unchanged. -/
def mergeSystemComponents (t : ContentTemplate) (comps : List (String × Option String)) :
    ContentTemplate :=
  let filtered := filterComponents comps
  if filtered.isEmpty then t
  else filtered.foldl (fun acc fv => setField acc fv.1 fv.2) t

theorem getField_setField (t : ContentTemplate) (fn fn' : FieldName) (v : String) :
    getField (setField t fn' v) fn = if fn' = fn then v else getField t fn := by
  cases fn <;> cases fn' <;> simp [getField, setField]

theorem contentTemplate_ext {t₁ t₂ : ContentTemplate}
    (h : ∀ fn, getField t₁ fn = getField t₂ fn) : t₁ = t₂ := by
  cases t₁
  cases t₂
  simp only [ContentTemplate.mk.injEq]
  exact ⟨h .roleDescription, h .contentObjective, h .styleGuidance, h .structureDescription,
    h .tone, h .formatGuide, h .seoGuidelines, h .limitations, h .additionalInstructions⟩

/-- The last value assigned to a field by an update list, accumulated left to
right (`acc` is the value seen so far). -/
def lastAssignAux (fn : FieldName) : Option String → List (FieldName × String) → Option String
  | acc, [] => acc
  | acc, a :: f => lastAssignAux fn (if a.1 = fn then some a.2 else acc) f

def optOr : Option String → Option String → Option String
  | some v, _ => some v
  | none, b => b

theorem lastAssignAux_shift (fn : FieldName) :
    ∀ (f : List (FieldName × String)) (acc : Option String),
      lastAssignAux fn acc f = optOr (lastAssignAux fn none f) acc
  | [], acc => by simp [lastAssignAux, optOr]
  | a :: f, acc => by
    simp only [lastAssignAux]
    by_cases h : a.1 = fn
    · rw [if_pos h, if_pos h]
      rw [lastAssignAux_shift fn f (some a.2)]
      cases lastAssignAux fn none f <;> simp [optOr]
    · rw [if_neg h, if_neg h]
      exact lastAssignAux_shift fn f acc

theorem applyAll_getField :
    ∀ (f : List (FieldName × String)) (t : ContentTemplate) (fn : FieldName),
      getField (f.foldl (fun acc fv => setField acc fv.1 fv.2) t) fn
        = (lastAssignAux fn none f).getD (getField t fn)
  | [], t, fn => by simp [lastAssignAux]
  | a :: f, t, fn => by
    rw [List.foldl_cons, applyAll_getField f _ fn]
    rw [getField_setField]
    show _ = (lastAssignAux fn (if a.1 = fn then some a.2 else none) f).getD (getField t fn)
    by_cases h : a.1 = fn
    · rw [if_pos h, if_pos h, lastAssignAux_shift fn f (some a.2)]
      cases lastAssignAux fn none f <;> simp [optOr]
    · rw [if_neg h, if_neg h]

/-- A fresh-template store: Python object creation is modelled as appending
to a list of template records; `type(original_template)(**template_args)`
allocates, it never writes to an existing record. -/
def emptyTemplate : ContentTemplate :=
  { roleDescription := "", contentObjective := "", styleGuidance := "",
    structureDescription := "", tone := "", formatGuide := "",
    seoGuidelines := "", limitations := "", additionalInstructions := "" }

/-- The merge step acting on a store of template records: read the record at
`r`, build the merged template as a NEW record, return the new store and the
fresh index. -/
def mergeInStore (s : List ContentTemplate) (r : Nat)
    (comps : List (String × Option String)) : List ContentTemplate × Nat :=
  (s ++ [mergeSystemComponents (s.getD r emptyTemplate) comps], s.length)

/-- C5: merging the same overrides twice gives the same effective template as
merging once, and the merge never mutates the record it reads its defaults
from — in the store model, the slot of the original template is unchanged
and the merged template lives at a fresh index. -/
theorem merge_idempotent_and_nonmutating (t : ContentTemplate)
    (comps : List (String × Option String)) :
    mergeSystemComponents (mergeSystemComponents t comps) comps
        = mergeSystemComponents t comps ∧
      ∀ (s : List ContentTemplate) (r : Nat), r < s.length →
        (mergeInStore s r comps).1.getD r emptyTemplate = s.getD r emptyTemplate ∧
          (mergeInStore s r comps).2 ≠ r := by
  constructor
  · unfold mergeSystemComponents
    by_cases hf : (filterComponents comps).isEmpty
    · simp [hf]
    · simp only [hf, if_false, Bool.false_eq_true]
      apply contentTemplate_ext
      intro fn
      rw [applyAll_getField, applyAll_getField]
      cases lastAssignAux fn none (filterComponents comps) <;> simp
  · intro s r hr
    constructor
    · unfold mergeInStore
      simp [List.getD, List.getElem?_append, hr]
    · unfold mergeInStore
      omega

/-- C5 witness: a concrete template, override set and one-slot store. -/
theorem merge_idempotent_and_nonmutating_witness :
    (mergeSystemComponents (mergeSystemComponents emptyTemplate [("tone", some "t")])
          [("tone", some "t")]
        = mergeSystemComponents emptyTemplate [("tone", some "t")]) ∧
      ((mergeInStore [emptyTemplate] 0 [("tone", some "t")]).1.getD 0 emptyTemplate
          = [emptyTemplate].getD 0 emptyTemplate ∧
        (mergeInStore [emptyTemplate] 0 [("tone", some "t")]).2 ≠ 0) :=
  ⟨(merge_idempotent_and_nonmutating emptyTemplate [("tone", some "t")]).1,
   (merge_idempotent_and_nonmutating emptyTemplate [("tone", some "t")]).2
     [emptyTemplate] 0 (by decide)⟩

/-- C9: an override entry whose key is outside the declared `valid_fields`
set is silently dropped: no error is raised (the merge is total) and the
entry has no effect on the effective configuration. -/
theorem unsupported_field_ignored (t : ContentTemplate) (k : String) (v : Option String)
    (comps : List (String × Option String)) (hk : fieldOfString k = none) :
    mergeSystemComponents t ((k, v) :: comps) = mergeSystemComponents t comps := by
  unfold mergeSystemComponents filterComponents
  rw [List.filterMap_cons, hk]

/-- C9 witness: the unsupported key "human_template" (a field of the
customization request that is not in `valid_fields`) is dropped. -/
theorem unsupported_field_ignored_witness :
    mergeSystemComponents emptyTemplate [("human_template", some "x"), ("tone", some "t")]
      = mergeSystemComponents emptyTemplate [("tone", some "t")] :=
  unsupported_field_ignored emptyTemplate "human_template" (some "x")
    [("tone", some "t")] (by decide)

/-! ### The LinkedIn agent (`linkedin/agents/linkedin_agent.py`) and its
templates (`linkedin/prompts/linkedin_prompts.py`) -/

inductive LinkedInPostStyle
  | leadership
  | behindTheScenes
  | wins
  | ceoJourney
  | hotTakes
deriving DecidableEq

inductive LinkedInAuthor
  | pablo
  | aitor
  | defaultAuthor
deriving DecidableEq

def authorValue : LinkedInAuthor → String
  | .pablo => "Pablo"
  | .aitor => "Aitor"
  | .defaultAuthor => "Default"

def estiloValue : LinkedInPostStyle → String
  | .leadership => "Leadership"
  | .behindTheScenes => "Behind the Scenes"
  | .wins => "Wins"
  | .ceoJourney => "CEO Journey"
  | .hotTakes => "Hot Takes"

/-- The `LinkedInPromptTemplate.__init__` default for `limitations`; the five
style subclasses take no `limitations` constructor argument, so instances
they build always carry this value. -/
def linkedInDefaultLimitations : String :=
  "- Evita contenido excesivamente promocional\n- No uses más de 3-4 hashtags\n- Evita textos demasiado largos\n- No uses jerga excesivamente técnica"

/-- `LinkedInPromptTemplate()` with its constructor defaults
(linkedin_prompts.py lines 13-36); `seo_guidelines` is never passed, so it is
the `ContentPromptTemplate` default `""`. -/
def linkedInBaseTemplate : LinkedInTemplate :=
  { toContent :=
      { roleDescription := "especialista en creación de contenido para LinkedIn"
        contentObjective := "generar publicaciones profesionales con alto engagement"
        styleGuidance := "Profesional pero conversacional, incluye emojis estratégicamente"
        structureDescription := "Utiliza párrafos cortos, llamada a la acción al final"
        tone := "Profesional con toque personal y conversacional"
        formatGuide := "- Párrafos cortos (1-3 líneas máximo)\n- Utiliza espacios entre párrafos\n- Incluye emojis relevantes\n- Considera usar líneas para separar secciones\n- Usa hashtags relevantes al final"
        seoGuidelines := ""
        limitations := linkedInDefaultLimitations
        additionalInstructions := "" }
    engagementTips := "- Comienza con una pregunta o dato sorprendente\n- Cuenta una historia personal o profesional breve\n- Incluye una reflexión que inspire a comentar\n- Termina con una llamada a la acción clara" }

def leadershipTemplate : LinkedInTemplate :=
  { toContent :=
      { roleDescription := "líder visionario y estratega empresarial"
        contentObjective := "compartir perspectivas estratégicas que inspiren a otros líderes"
        styleGuidance := "Visionario, inspirador y orientado a resultados"
        structureDescription := "- Comienza con una reflexión profunda o lección aprendida\n- Desarrolla una idea estratégica clave\n- Comparte perspectivas que desafíen el pensamiento convencional\n- Termina con una pregunta reflexiva o llamada a la acción inspiradora"
        tone := "Autoritativo pero accesible, con enfoque en el valor estratégico"
        formatGuide := "- Párrafos concisos y poderosos\n- Utiliza una o dos frases impactantes\n- Incluye una metáfora o analogía potente\n- Un emoji estratégicamente colocado puede añadir personalidad"
        seoGuidelines := ""
        limitations := linkedInDefaultLimitations
        additionalInstructions := "Muestra confianza y visión sin arrogancia. Mantén un balance entre sabiduría compartida y humildad." }
    engagementTips := "- Comparte una lección de liderazgo personal\n- Menciona un desafío superado\n- Habla de tendencias futuras en tu industria\n- Pide opiniones sobre enfoques estratégicos" }

def behindTheScenesTemplate : LinkedInTemplate :=
  { toContent :=
      { roleDescription := "líder transparente que comparte el día a día empresarial"
        contentObjective := "humanizar la marca mostrando los procesos internos y el trabajo cotidiano"
        styleGuidance := "Auténtico, cercano y revelador, mostrando aspectos normalmente no visibles"
        structureDescription := "- Comienza contextualizando la situación o momento\n- Describe el proceso o la situación interna\n- Comparte aprendizajes o reflexiones personales\n- Conecta con valores o misión de la empresa\n- Termina con una nota personal o pregunta"
        tone := "Conversacional, honesto y transparente"
        formatGuide := "- Estilo narrativo y personal\n- Usa primera persona\n- Incluye detalles específicos que den autenticidad\n- Emojis que transmitan emociones reales\n- Considera mencionar a miembros del equipo"
        seoGuidelines := ""
        limitations := linkedInDefaultLimitations
        additionalInstructions := "Busca el balance entre transparencia y profesionalismo. Muestra vulnerabilidad pero mantén una imagen de competencia." }
    engagementTips := "- Comparte un desafío y cómo se superó\n- Muestra el antes/después de un proceso\n- Habla sobre errores y aprendizajes\n- Pide opiniones sobre decisiones o enfoques" }

def winsTemplate : LinkedInTemplate :=
  { toContent :=
      { roleDescription := "líder que celebra logros y reconoce contribuciones"
        contentObjective := "compartir y celebrar éxitos, hitos y reconocimientos de manera inspiradora"
        styleGuidance := "Celebratorio, orgulloso pero humilde, enfocado en el impacto"
        structureDescription := "- Anuncia el logro o reconocimiento claramente\n- Proporciona contexto sobre su importancia\n- Reconoce a las personas involucradas\n- Comparte lecciones o factores de éxito\n- Expresa gratitud y proyecta hacia el futuro"
        tone := "Entusiasta, genuinamente orgulloso y agradecido"
        formatGuide := "- Frases contundentes y celebratorias\n- Usa emojis festivos estratégicamente\n- Incluye números o métricas cuando sea relevante\n- Considera mencionar y etiquetar a personas clave\n- Usa signos de exclamación con moderación"
        seoGuidelines := ""
        limitations := linkedInDefaultLimitations
        additionalInstructions := "Equilibra la celebración con humildad. Destaca los logros sin parecer presumido, y siempre reconoce el esfuerzo colectivo." }
    engagementTips := "- Comparte el camino hacia el logro, no solo el resultado\n- Menciona obstáculos superados\n- Expresa gratitud específica\n- Invita a otros a compartir sus propios éxitos" }

def ceoJourneyTemplate : LinkedInTemplate :=
  { toContent :=
      { roleDescription := "CEO que comparte su trayectoria y experiencias de liderazgo"
        contentObjective := "narrar experiencias personales de liderazgo que inspiren y eduquen"
        styleGuidance := "Narrativo, reflexivo y personal, con enfoque en el crecimiento"
        structureDescription := "- Comienza con un momento decisivo o desafiante\n- Narra la experiencia o lección aprendida\n- Reflexiona sobre el impacto en tu liderazgo\n- Conecta con principios o valores\n- Comparte una conclusión o consejo derivado"
        tone := "Auténtico, reflexivo y vulnerable pero seguro"
        formatGuide := "- Estilo narrativo con arco claro\n- Primera persona y lenguaje personal\n- Incluye detalles específicos que den autenticidad\n- Considera usar una estructura temporal (antes/después)\n- Emojis que transmitan emociones genuinas"
        seoGuidelines := ""
        limitations := linkedInDefaultLimitations
        additionalInstructions := "Muestra vulnerabilidad auténtica balanceada con resiliencia. El objetivo es inspirar mostrando tanto los desafíos como las superaciones." }
    engagementTips := "- Comparte un fracaso y cómo te transformó\n- Menciona mentores o influencias clave\n- Describe un momento de duda o pivot\n- Pregunta por experiencias similares" }

def hotTakesTemplate : LinkedInTemplate :=
  { toContent :=
      { roleDescription := "líder de opinión que desafía el pensamiento convencional"
        contentObjective := "presentar perspectivas contraintuitivas o disruptivas que generen debate"
        styleGuidance := "Provocativo, disruptivo y desafiante, pero fundamentado"
        structureDescription := "- Comienza con una afirmación contundente y sorprendente\n- Desafía una creencia o práctica establecida\n- Argumenta tu posición con ejemplos o lógica\n- Anticipa y responde a potenciales objeciones\n- Invita al debate con una pregunta o reto"
        tone := "Asertivo, seguro y ligeramente provocador"
        formatGuide := "- Frases cortas e impactantes\n- Usa párrafos concisos\n- Incluye al menos una afirmación controversial\n- Considera usar formato numerado para puntos clave\n- Limita los emojis para mantener seriedad"
        seoGuidelines := ""
        limitations := linkedInDefaultLimitations
        additionalInstructions := "Sé provocativo pero siempre mantén el profesionalismo. No seas controversial solo por serlo; asegúrate de tener argumentos sólidos detrás de tus afirmaciones." }
    engagementTips := "- Cuestiona una práctica común en la industria\n- Contradice una \x27verdad\x27 aceptada\n- Usa frases como \x27¿Impopular opinión?\x27\n- Termina con \x27¿Estás de acuerdo o en desacuerdo?\x27" }

/-- `get_prompt_template_for_style` (lines 247-265): the style lookup table.
Each dictionary entry constructs a fresh instance; the `.get` default for an
unrecognised member cannot trigger for the closed enum. -/
def getPromptTemplateForStyle : LinkedInPostStyle → LinkedInTemplate
  | .leadership => leadershipTemplate
  | .behindTheScenes => behindTheScenesTemplate
  | .wins => winsTemplate
  | .ceoJourney => ceoJourneyTemplate
  | .hotTakes => hotTakesTemplate

/-- `get_author_system_prompt` (lines 268-298): persona instructions, `""`
for an author outside the table. -/
def getAuthorSystemPrompt : LinkedInAuthor → String
  | .pablo => "Emula el estilo de escritura de Pablo, caracterizado por:\n- Tono visionario y estratégico\n- Uso ocasional de anglicismos técnicos\n- Párrafos cortos con ideas potentes\n- Menciones frecuentes a innovación y transformación\n- Balance entre profesionalismo y cercanía\n- Uso selectivo de emojis estratégicos\n- Preguntas reflexivas al final"
  | .aitor => "Emula el estilo de escritura de Aitor, caracterizado por:\n- Tono directo y práctico\n- Enfoque en resultados tangibles\n- Uso de ejemplos concretos y datos\n- Párrafos estructurados lógicamente\n- Estilo conciso y claro\n- Referencias ocasionales a experiencias personales\n- Llamadas a la acción específicas"
  | .defaultAuthor => ""

/-- `_get_model_for_author` (lines 74-95): the static author → fine-tuned
model table, falling back to the agent's current model. -/
def getModelForAuthor (currentModel : String) : LinkedInAuthor → String
  | .pablo => "ft:gpt-4o-pablo-linkedin-20250320"
  | .aitor => "ft:gpt-4o-aitor-linkedin-20250325"
  | .defaultAuthor => currentModel

/-- The request fields of `LinkedInPostRequest` used by `generate_post`. -/
structure LinkedInPostReq where
  tema : String
  autor : LinkedInAuthor
  estilo : LinkedInPostStyle
  informacionAdicional : Option String
  roleDescription : Option String
  contentObjective : Option String
  styleGuidance : Option String
  structureDescription : Option String
  tone : Option String
  formatGuide : Option String
  engagementTips : Option String
  limitations : Option String
  additionalInstructions : Option String

/-- `_create_template_instance` (lines 97-143) for the five style classes:
their constructors accept the eight parameters role/objective/style/
structure/tone/format/engagement/additional (no `limitations`, no
`seo_guidelines`), so those are copied from the original template,
`additional_instructions` is replaced, and the two missing fields take the
constructor defaults (the base `limitations` default, `""` for SEO). -/
def createTemplateInstance (orig : LinkedInTemplate) (addInstr : String) : LinkedInTemplate :=
  { toContent :=
      { roleDescription := orig.toContent.roleDescription
        contentObjective := orig.toContent.contentObjective
        styleGuidance := orig.toContent.styleGuidance
        structureDescription := orig.toContent.structureDescription
        tone := orig.toContent.tone
        formatGuide := orig.toContent.formatGuide
        seoGuidelines := ""
        limitations := linkedInDefaultLimitations
        additionalInstructions := addInstr }
    engagementTips := orig.engagementTips }

/-- Lines 190-226 of `generate_post`: the custom template built when any
system-prompt field is supplied — `_create_template_instance` over the style
template with the merged `additional_instructions`, then every other
supplied-or-style value written onto the fresh instance by the `setattr`
loop. -/
def customTemplate (st : LinkedInTemplate) (req : LinkedInPostReq) : LinkedInTemplate :=
  let base := createTemplateInstance st (req.additionalInstructions.getD
    st.toContent.additionalInstructions)
  { toContent :=
      { base.toContent with
        roleDescription := req.roleDescription.getD st.toContent.roleDescription
        contentObjective := req.contentObjective.getD st.toContent.contentObjective
        styleGuidance := req.styleGuidance.getD st.toContent.styleGuidance
        structureDescription := req.structureDescription.getD st.toContent.structureDescription
        tone := req.tone.getD st.toContent.tone
        formatGuide := req.formatGuide.getD st.toContent.formatGuide
        limitations := req.limitations.getD st.toContent.limitations }
    engagementTips := req.engagementTips.getD st.engagementTips }

/-- The regex class `\w` of `extract_hashtags`, over the ASCII word
characters plus the accented Spanish letters. -/
def isWordChar (c : Char) : Bool :=
  ('a' ≤ c && c ≤ 'z') || ('A' ≤ c && c ≤ 'Z') || ('0' ≤ c && c ≤ '9') || c = '_' ||
    c = 'á' || c = 'é' || c = 'í' || c = 'ó' || c = 'ú' || c = 'ñ' || c = 'ü' ||
    c = 'Á' || c = 'É' || c = 'Í' || c = 'Ó' || c = 'Ú' || c = 'Ñ' || c = 'Ü'

/-- `extract_hashtags` (`common/utils/helpers.py` lines 157-168):
`re.findall(r'#(\w+)', text)`, fuel-based (each step consumes at least one
character, so `length` fuel suffices). -/
def extractHashtagsAux : Nat → List Char → List String
  | 0, _ => []
  | fuel + 1, l =>
    match l with
    | [] => []
    | c :: rest =>
      if c = '#' then
        let w := rest.takeWhile isWordChar
        if w.isEmpty then extractHashtagsAux fuel rest
        else String.mk w :: extractHashtagsAux fuel (rest.drop w.length)
      else extractHashtagsAux fuel rest

def extractHashtags (text : String) : List String :=
  extractHashtagsAux text.data.length text.data

example : extractHashtags "Post #IA y #Liderazgo2025 ##x #" = ["IA", "Liderazgo2025", "x"] := by
  decide

/-- `_parse_linkedin_post` (lines 45-72): the whole text is the post body,
hashtags are extracted; every step is total, so the `except` branch is
unreachable. -/
def parseLinkedInPost (text : String) : String × List String :=
  (text, extractHashtags text)

/-- The mutable agent state swapped during `generate_post`: the current
prompt template and the current model identity. -/
structure AgentState where
  template : LinkedInTemplate
  model : String

/-- The response record built at lines 273-286 (`temperature` of the
metadata map, a float, is outside the embedding). -/
structure LinkedInPostResponse where
  texto : String
  hashtags : List String
  content : String
  autor : String
  estilo : String
  modelUsed : String

/-- `update_model_settings` (`common/base_agent.py` lines 65-89) restricted
to the `model` argument: the new model id is assigned only when truthy
(`if model:`), so `None` and `""` leave the current model in place. -/
def updateModelSettings (st : AgentState) (m : Option String) : AgentState :=
  match m with
  | some v => if v ≠ "" then { st with model := v } else st
  | none => st

/-- The `finally` block (lines 287-291): restore the template always, the
model (through `update_model_settings`) only when a fine-tuned author model
was selected. -/
def restoreFinally (st : AgentState) (origTemplate : LinkedInTemplate)
    (useFineTuned : Bool) (origModel : String) : AgentState :=
  let st1 := { st with template := origTemplate }
  if useFineTuned then updateModelSettings st1 (some origModel) else st1

/-- `generate_post` (lines 162-295) as a state transition.  The awaited
`_call_llm` — the only fallible step — is abstracted by its outcome
`llmResult`; on both outcomes the `finally` restoration runs, and an error
is re-raised by the outer handler after logging. -/
def generatePost (st0 : AgentState) (req : LinkedInPostReq)
    (llmResult : Except String String) :
    Except String LinkedInPostResponse × AgentState :=
  let styleTemplate := getPromptTemplateForStyle req.estilo
  let originalTemplate := st0.template
  let st1 :=
    if req.roleDescription.isSome ∨ req.contentObjective.isSome ∨
        req.styleGuidance.isSome ∨ req.structureDescription.isSome ∨
        req.tone.isSome ∨ req.formatGuide.isSome ∨ req.engagementTips.isSome ∨
        req.limitations.isSome ∨ req.additionalInstructions.isSome then
      { st0 with template := customTemplate styleTemplate req }
    else { st0 with template := styleTemplate }
  let useFineTuned := req.autor ≠ LinkedInAuthor.defaultAuthor
  let originalModel := st1.model
  let st2 :=
    if useFineTuned then updateModelSettings st1 (some (getModelForAuthor st1.model req.autor))
    else st1
  let st3 :=
    if useFineTuned then
      let authorInstructions := getAuthorSystemPrompt req.autor
      if authorInstructions ≠ "" then
        let additional := st2.template.toContent.additionalInstructions
        let combined :=
          if additional ≠ "" then additional ++ "\n\n" ++ authorInstructions
          else authorInstructions
        { st2 with template := createTemplateInstance st2.template combined }
      else st2
    else st2
  match llmResult with
  | .ok text =>
    let parsed := parseLinkedInPost text
    let resp : LinkedInPostResponse :=
      { texto := parsed.1, hashtags := parsed.2, content := parsed.1,
        autor := authorValue req.autor, estilo := estiloValue req.estilo,
        modelUsed := st3.model }
    (.ok resp, restoreFinally st3 originalTemplate (decide useFineTuned) originalModel)
  | .error e =>
    (.error e, restoreFinally st3 originalTemplate (decide useFineTuned) originalModel)

theorem restoreFinally_template (st : AgentState) (t : LinkedInTemplate)
    (b : Bool) (m : String) : (restoreFinally st t b m).template = t := by
  unfold restoreFinally updateModelSettings
  cases b
  · rfl
  · simp only [if_true]
    split <;> rfl

theorem restoreFinally_model (st : AgentState) (t : LinkedInTemplate) (m : String)
    (hm : m ≠ "") :
    (restoreFinally st t true m).model = m ∧
      (restoreFinally st t false m).model = st.model := by
  unfold restoreFinally updateModelSettings
  simp [hm]

/-- C2: after `generate_post` completes — whether the wrapped LLM call
returns normally or raises — the agent's current prompt template and current
model equal their values from immediately before the call: the swap is
undone on every exit path.  (The model restoration runs through
`update_model_settings`, whose `if model:` guard skips falsy values, hence
the hypothesis that the agent's model id is non-empty — always true for a
real model id.) -/
theorem generate_post_restores_template_and_model (st : AgentState)
    (req : LinkedInPostReq) (llmResult : Except String String)
    (hm : st.model ≠ "") :
    (generatePost st req llmResult).2.template = st.template ∧
      (generatePost st req llmResult).2.model = st.model := by
  have hm1 : ∀ t : LinkedInTemplate, (AgentState.mk t st.model).model = st.model :=
    fun _ => rfl
  cases llmResult with
  | ok text =>
    constructor
    · show (restoreFinally _ st.template _ _).template = st.template
      exact restoreFinally_template _ _ _ _
    · show (restoreFinally _ st.template _ _).model = st.model
      unfold restoreFinally updateModelSettings
      by_cases h : req.autor = LinkedInAuthor.defaultAuthor <;>
        (simp [h]; split <;> simp [hm])
  | error e =>
    constructor
    · show (restoreFinally _ st.template _ _).template = st.template
      exact restoreFinally_template _ _ _ _
    · show (restoreFinally _ st.template _ _).model = st.model
      unfold restoreFinally updateModelSettings
      by_cases h : req.autor = LinkedInAuthor.defaultAuthor <;>
        (simp [h]; split <;> simp [hm])

/-- C2 witness: a concrete agent state, request and both call outcomes. -/
theorem generate_post_restores_template_and_model_witness :
    ((generatePost ⟨linkedInBaseTemplate, "gpt-4o"⟩
          ⟨"tema", .pablo, .leadership, none, none, none, none, none, none, none,
            none, none, some "extra"⟩ (.ok "salida")).2.template = linkedInBaseTemplate ∧
        (generatePost ⟨linkedInBaseTemplate, "gpt-4o"⟩
          ⟨"tema", .pablo, .leadership, none, none, none, none, none, none, none,
            none, none, some "extra"⟩ (.ok "salida")).2.model = "gpt-4o") ∧
      ((generatePost ⟨linkedInBaseTemplate, "gpt-4o"⟩
          ⟨"tema", .aitor, .wins, none, none, none, none, none, none, none,
            none, none, none⟩ (.error "timeout")).2.template = linkedInBaseTemplate ∧
        (generatePost ⟨linkedInBaseTemplate, "gpt-4o"⟩
          ⟨"tema", .aitor, .wins, none, none, none, none, none, none, none,
            none, none, none⟩ (.error "timeout")).2.model = "gpt-4o") :=
  ⟨generate_post_restores_template_and_model ⟨linkedInBaseTemplate, "gpt-4o"⟩
      ⟨"tema", .pablo, .leadership, none, none, none, none, none, none, none,
        none, none, some "extra"⟩ (.ok "salida") (by decide),
   generate_post_restores_template_and_model ⟨linkedInBaseTemplate, "gpt-4o"⟩
      ⟨"tema", .aitor, .wins, none, none, none, none, none, none, none,
        none, none, none⟩ (.error "timeout") (by decide)⟩

end ToolContent
